import Mathlib

/-!
Shallow embedding of `src/feature_engineering.py` (the whole repository is
this one file): a linear feature-engineering pipeline that loads a YAML
parameter file, loads train/test CSV datasets, applies a bounded-vocabulary
TF-IDF vectorization fitted on the training text column, attaches labels,
and saves the two resulting feature tables as CSV files.

Modelling conventions:
* pandas `DataFrame` is a list of named columns (`Cell` values); column
  assignment `df['label'] = y` overwrites an existing column in place and
  otherwise appends at the end, exactly as pandas does;
* CSV files are modelled at the level pandas sees them: a header plus data
  lines whose fields are either present cells or missing (`none`); pandas
  reads a missing field as NaN and `fillna('')` turns NaN into `""`;
* sklearn's `TfidfVectorizer(max_features=k)` is modelled by its documented
  behaviour: tokens are lowercased maximal runs of word characters of length
  at least two, the vocabulary is the set of distinct training tokens, cut
  to the `k` terms of highest total frequency across the training corpus
  (ties alphabetical), and reported in alphabetical order; an empty fitted
  vocabulary makes fitting raise (sklearn's "empty vocabulary" ValueError).
  The floating-point tf-idf weight is proxied by a rational function
  `tfidfWeight tf dfreq n` of the same arguments (term count in the
  document, training document frequency, training corpus size): no claim
  below depends on the numeric weight values, only on which statistics they
  are computed from;
* Python exceptions are `Except Err`; the log and the side effects of each
  call are an explicit `List Event` trace; the filesystem is an explicit
  `FS` value, which can also mark a file as unreadable or a path as
  unwritable so that the generic `except Exception` branches of the source
  are reachable in the model.
-/

/-- Association-list lookup by string key (first match), used for the
filesystem and for the nested YAML parameter mapping. -/
def lookupA {α : Type} : List (String × α) → String → Option α
  | [], _ => none
  | (k, v) :: rest, key => if k = key then some v else lookupA rest key

/-- Insert `x` into `l` keeping elements for which `le` already holds in
front: the insertion step of a stable insertion sort. -/
def insortBy {α : Type} (le : α → α → Bool) (x : α) : List α → List α
  | [] => [x]
  | y :: ys => if le x y then x :: y :: ys else y :: insortBy le x ys

/-- Stable insertion sort by the boolean relation `le`. -/
def sortBy {α : Type} (le : α → α → Bool) : List α → List α
  | [] => []
  | x :: xs => insortBy le x (sortBy le xs)

/-- Lexicographic order on character lists (by code point). -/
def charListLe : List Char → List Char → Bool
  | [], _ => true
  | _ :: _, [] => false
  | a :: as, b :: bs => if a = b then charListLe as bs else decide (a < b)

/-- Alphabetical (code-point lexicographic) order on strings as a boolean,
used by the vectorizer. -/
def strLe (a b : String) : Bool := charListLe a.data b.data

/-- One pandas cell: a string, a (rational-valued) number, or NaN. -/
inductive Cell : Type
  | str (s : String)
  | num (q : ℚ)
  | nan
deriving DecidableEq

/-- A pandas DataFrame: an ordered list of named, equal-length columns. -/
structure DataFrame : Type where
  cols : List (String × List Cell)
deriving DecidableEq

namespace DataFrame

/-- Column names, in order. -/
def names (df : DataFrame) : List String := df.cols.map Prod.fst

/-- Read a column by name (first match), `df[name]` on the right-hand side. -/
def getCol (df : DataFrame) (name : String) : Option (List Cell) :=
  lookupA df.cols name

/-- Column assignment on the underlying list: overwrite the first column of
that name in place, otherwise append a new column at the end (pandas
`df[name] = vals`). -/
def setColList (name : String) (vals : List Cell) :
    List (String × List Cell) → List (String × List Cell)
  | [] => [(name, vals)]
  | c :: cs => if c.1 = name then (name, vals) :: cs else c :: setColList name vals cs

/-- Column assignment `df[name] = vals`. -/
def setCol (df : DataFrame) (name : String) (vals : List Cell) : DataFrame :=
  ⟨setColList name vals df.cols⟩

/-- Number of rows: the length of the first column (0 for no columns). -/
def nRows (df : DataFrame) : ℕ :=
  match df.cols with
  | [] => 0
  | c :: _ => c.2.length

/-- Replace every NaN cell by the empty string: `df.fillna('')`. -/
def fillCell : Cell → Cell
  | Cell.nan => Cell.str ""
  | c => c

/-- The `df.fillna('')` call of `load_data`. -/
def fillna (df : DataFrame) : DataFrame :=
  ⟨df.cols.map (fun c => (c.1, c.2.map fillCell))⟩

end DataFrame

/-! ## The TfidfVectorizer model -/

/-- A word character for sklearn's default token pattern `\w\w+`. -/
def isWordChar (c : Char) : Bool := c.isAlphanum || c = '_'

/-- Split a character list into maximal runs of word characters (the
accumulator holds the current run, reversed). -/
def splitTokens : List Char → List Char → List (List Char)
  | [], acc => if acc.isEmpty then [] else [acc.reverse]
  | c :: cs, acc =>
    if isWordChar c then splitTokens cs (c :: acc)
    else if acc.isEmpty then splitTokens cs []
    else acc.reverse :: splitTokens cs []

/-- sklearn's default tokenization: lowercase, then keep maximal word-character
runs of length at least two. -/
def tokenize (s : String) : List String :=
  ((splitTokens (s.data.map Char.toLower) []).filter (fun t => 2 ≤ t.length)).map
    (fun t => String.mk t)

/-- Total number of occurrences of term `t` across the corpus (sklearn ranks
terms by this count when enforcing `max_features`). -/
def termFreq (t : String) (docs : List (List String)) : ℕ :=
  (docs.map (fun d => d.count t)).sum

/-- Number of documents of `docs` containing `t` (the document frequency used
by the idf statistic). -/
def docFreq (t : String) (docs : List (List String)) : ℕ :=
  (docs.filter (fun d => t ∈ d)).length

/-- All distinct terms of the corpus, alphabetically. -/
def allTerms (docs : List (List String)) : List String :=
  sortBy strLe docs.flatten.dedup

/-- The fitted vocabulary: distinct training terms, cut to the `maxF` of
highest total corpus frequency (ties alphabetical, by stability), reported
in alphabetical order as `get_feature_names_out` does. -/
def fitVocab (docs : List (List String)) (maxF : ℕ) : List String :=
  sortBy strLe
    ((sortBy (fun a b => termFreq b docs ≤ termFreq a docs) (allTerms docs)).take maxF)

/-- Rational proxy for sklearn's floating-point tf-idf weight of a term with
`tf` occurrences in the document, training document frequency `dfreq`, and
`n` training documents. The true weight uses a logarithm and l2
normalisation; only the arguments it depends on matter to the claims. -/
def tfidfWeight (tf dfreq n : ℕ) : ℚ :=
  (tf : ℚ) * (((n : ℚ) + 1) / ((dfreq : ℚ) + 1) + 1)

/-- The column of tf-idf weights of term `t` for each document of `docs`,
with idf statistics taken from `trainDocs` (the fitted state). -/
def tfidfColumn (t : String) (trainDocs docs : List (List String)) : List Cell :=
  docs.map (fun d => Cell.num (tfidfWeight (d.count t) (docFreq t trainDocs) trainDocs.length))

/-- Build one output table: one numeric column per vocabulary term (weights
from the training-fitted statistics), then the assignment
`df['label'] = y`. -/
def buildDF (vocab : List String) (trainDocs docs : List (List String))
    (y : List Cell) : DataFrame :=
  (DataFrame.mk (vocab.map (fun t => (t, tfidfColumn t trainDocs docs)))).setCol "label" y

/-- Python exception kinds distinguished by the source's handlers. -/
inductive Err : Type
  | fileNotFound
  | parseError
  | keyError
  | transformError
  | other
deriving DecidableEq

/-- Values of the text column must be strings for sklearn to tokenize them;
anything else raises during transformation. -/
def cellText : Cell → Option String
  | Cell.str s => some s
  | _ => none

/-- All text cells as strings, or failure if any is not a string. -/
def cellTexts : List Cell → Option (List String)
  | [] => some []
  | c :: cs =>
    match cellText c, cellTexts cs with
    | some s, some ss => some (s :: ss)
    | _, _ => none

/-- The body of `apply_tfidf` after the four column reads: fit on the train
texts, transform both sides with the fitted vocabulary and statistics,
attach labels. An empty fitted vocabulary raises (sklearn's "empty
vocabulary" ValueError), caught and re-raised by the function's handler. -/
def tfidfCore (xtr ytr xte yte : List Cell) (maxF : ℕ) :
    Except Err (DataFrame × DataFrame) :=
  match cellTexts xtr, cellTexts xte with
  | some ttr, some tte =>
    let docsTr := ttr.map tokenize
    let vocab := fitVocab docsTr maxF
    if vocab = [] then Except.error Err.transformError
    else Except.ok
      (buildDF vocab docsTr docsTr ytr,
       buildDF vocab docsTr (tte.map tokenize) yte)
  | _, _ => Except.error Err.transformError

/-- `apply_tfidf(train_data, test_data, max_features, text_col, target_col)`:
read the four columns (a missing column raises a KeyError, re-raised by the
handler), then fit/transform/assemble. -/
def apply_tfidf (train_data test_data : DataFrame) (max_features : ℕ)
    (text_col : String := "text") (target_col : String := "target") :
    Except Err (DataFrame × DataFrame) :=
  match train_data.getCol text_col, train_data.getCol target_col,
        test_data.getCol text_col, test_data.getCol target_col with
  | some xtr, some ytr, some xte, some yte => tfidfCore xtr ytr xte yte max_features
  | _, _, _, _ => Except.error Err.keyError

/-! ## CSV files, the filesystem, and the event trace -/

/-- A CSV file as pandas sees it: a header row of column names and data
lines whose fields are present cells or missing (`none`, read as NaN). -/
structure CSVFile : Type where
  header : List String
  lines : List (List (Option Cell))
deriving DecidableEq

/-- Well-formed delimited input: at least one column, and every data line
has exactly one field per header name. -/
def wellFormedCSV (f : CSVFile) : Prop :=
  f.header ≠ [] ∧ ∀ row ∈ f.lines, row.length = f.header.length

/-- A missing field is read as NaN; a present cell is read as itself. -/
def optCell : Option (Option Cell) → Cell
  | some (some c) => c
  | _ => Cell.nan

/-- The columns built by `pd.read_csv`: the column for the `j`-th header
name holds, for each data line, its `j`-th field (NaN when missing). -/
def csvCols (header : List String) (j : ℕ) (lines : List (List (Option Cell))) :
    List (String × List Cell) :=
  match header with
  | [] => []
  | h :: hs => (h, lines.map (fun row => optCell row[j]?)) :: csvCols hs (j + 1) lines

/-- `pd.read_csv` on a structurally parseable file. -/
def read_csv (f : CSVFile) : DataFrame :=
  ⟨csvCols f.header 0 f.lines⟩

/-- A cell as written by `df.to_csv`: NaN and the empty string both become
an empty field (missing on re-read); other cells are written out. -/
def cellToField : Cell → Option Cell
  | Cell.nan => none
  | Cell.str s => if s = "" then none else some (Cell.str s)
  | Cell.num q => some (Cell.num q)

/-- The row list of a DataFrame (row-major view used by `to_csv`). -/
def rowsOf (df : DataFrame) : List (List Cell) :=
  (List.range df.nRows).map (fun i => df.cols.map (fun c => c.2[i]?.getD Cell.nan))

/-- The CSV file written by `df.to_csv(path, index=False)`: the header is
exactly the column names (no row-index column) and each data line is one
row of cells. -/
def writeCSV (df : DataFrame) : CSVFile :=
  ⟨df.names, (rowsOf df).map (fun row => row.map cellToField)⟩

/-- What the filesystem holds at a YAML path: malformed content, parseable
parameters, or a file whose read raises some other I/O exception. -/
inductive YamlEntry : Type
  | malformedYaml
  | yamlParams (p : List (String × List (String × ℕ)))
  | yamlReadFail
deriving DecidableEq

/-- What the filesystem holds at a CSV path: structurally malformed content
(pandas ParserError), a parseable file, or a file whose read raises some
other I/O exception. -/
inductive CsvEntry : Type
  | malformedCsv
  | csvOk (f : CSVFile)
  | csvReadFail
deriving DecidableEq

/-- The filesystem state: YAML files, CSV files, existing directories, and
the set of paths at which a write raises. -/
structure FS : Type where
  yamlFiles : List (String × YamlEntry)
  csvFiles : List (String × CsvEntry)
  dirs : List String
  badWritePaths : List String
deriving DecidableEq

/-- Split a character list at every occurrence of `sep`, keeping empty runs
(the accumulator holds the current run, reversed). -/
def splitOnChar (sep : Char) : List Char → List Char → List (List Char)
  | [], acc => [acc.reverse]
  | c :: cs, acc =>
    if c = sep then acc.reverse :: splitOnChar sep cs []
    else splitOnChar sep cs (c :: acc)

/-- `os.path.dirname`: everything before the last path separator. -/
def dirname (p : String) : String :=
  String.mk (List.intercalate ['/'] ((splitOnChar '/' p.data []).dropLast))

/-- One observable event: a file operation, a log line (debug or error), or
the `print` of the top-level handler. -/
inductive Event : Type
  | evOpenParams (path : String)
  | evReadCsv (path : String)
  | evMakedirs (dir : String)
  | evWriteCsv (path : String)
  | evLogDebug
  | evLogError (e : Err)
  | evPrint
deriving DecidableEq

/-- `load_params(params_path)`: open and parse the YAML file. A missing file
and malformed content are logged and re-raised; the catch-all branch logs
the error and falls through, returning `None` instead of raising. -/
def load_params (fs : FS) (params_path : String) :
    Except Err (Option (List (String × List (String × ℕ)))) × List Event :=
  match lookupA fs.yamlFiles params_path with
  | none =>
    (Except.error Err.fileNotFound,
     [Event.evOpenParams params_path, Event.evLogError Err.fileNotFound])
  | some YamlEntry.malformedYaml =>
    (Except.error Err.parseError,
     [Event.evOpenParams params_path, Event.evLogError Err.parseError])
  | some YamlEntry.yamlReadFail =>
    (Except.ok none,
     [Event.evOpenParams params_path, Event.evLogError Err.other])
  | some (YamlEntry.yamlParams p) =>
    (Except.ok (some p), [Event.evOpenParams params_path, Event.evLogDebug])

/-- `load_data(file_path)`: `pd.read_csv` then `fillna('')`. A ParserError is
logged and re-raised; any other exception (including a missing file) is
logged by the catch-all branch and re-raised. -/
def load_data (fs : FS) (file_path : String) : Except Err DataFrame × List Event :=
  match lookupA fs.csvFiles file_path with
  | none =>
    (Except.error Err.fileNotFound,
     [Event.evReadCsv file_path, Event.evLogError Err.fileNotFound])
  | some CsvEntry.malformedCsv =>
    (Except.error Err.parseError,
     [Event.evReadCsv file_path, Event.evLogError Err.parseError])
  | some CsvEntry.csvReadFail =>
    (Except.error Err.other,
     [Event.evReadCsv file_path, Event.evLogError Err.other])
  | some (CsvEntry.csvOk f) =>
    (Except.ok (read_csv f).fillna, [Event.evReadCsv file_path, Event.evLogDebug])

/-- `save_data(df, file_path)`: `os.makedirs(dirname, exist_ok=True)` then
`df.to_csv(file_path, index=False)`; any failure is logged and re-raised. -/
def save_data (df : DataFrame) (file_path : String) (fs : FS) :
    Except Err FS × List Event :=
  if file_path ∈ fs.badWritePaths then
    (Except.error Err.other,
     [Event.evMakedirs (dirname file_path), Event.evLogError Err.other])
  else
    (Except.ok
      { fs with
        dirs := dirname file_path :: fs.dirs,
        csvFiles := (file_path, CsvEntry.csvOk (writeCSV df)) :: fs.csvFiles },
     [Event.evMakedirs (dirname file_path), Event.evWriteCsv file_path,
      Event.evLogDebug])

/-- `params['feature_engineering']['max_features']`; `none` means the lookup
raises (a KeyError, or a TypeError when `load_params` fell through with
`None`). -/
def getMaxFeatures (p : Option (List (String × List (String × ℕ)))) : Option ℕ :=
  (p.bind (fun m => lookupA m "feature_engineering")).bind
    (fun m => lookupA m "max_features")

/-- The fixed relative paths of the pipeline driver. -/
def paramsPath : String := "params.yaml"

/-- Train input path. -/
def trainDataPath : String := "./data/interim/train_processed.csv"

/-- Test input path. -/
def testDataPath : String := "./data/interim/test_processed.csv"

/-- Train output path. -/
def trainOutPath : String := "./data/processed/train_tfidf.csv"

/-- Test output path. -/
def testOutPath : String := "./data/processed/test_tfidf.csv"

/-- The body of `main`'s `try` block: parameters, both loads, the vectorizer
stage, both saves, in sequence, propagating the first failure (later stages
are not executed). The trace concatenates the events of the executed
stages; `apply_tfidf`'s own error log is emitted here on its failure. -/
def mainBody (fs : FS) : Except Err FS × List Event :=
  match load_params fs paramsPath with
  | (Except.error e, ev) => (Except.error e, ev)
  | (Except.ok p, ev) =>
    match getMaxFeatures p with
    | none => (Except.error Err.keyError, ev)
    | some maxF =>
      match load_data fs trainDataPath with
      | (Except.error e, ev2) => (Except.error e, ev ++ ev2)
      | (Except.ok train_data, ev2) =>
        match load_data fs testDataPath with
        | (Except.error e, ev3) => (Except.error e, ev ++ ev2 ++ ev3)
        | (Except.ok test_data, ev3) =>
          match apply_tfidf train_data test_data maxF with
          | Except.error e =>
            (Except.error e, ev ++ ev2 ++ ev3 ++ [Event.evLogError e])
          | Except.ok dfs =>
            match save_data dfs.1 trainOutPath fs with
            | (Except.error e, ev5) => (Except.error e, ev ++ ev2 ++ ev3 ++ [Event.evLogDebug] ++ ev5)
            | (Except.ok fs1, ev5) =>
              match save_data dfs.2 testOutPath fs1 with
              | (Except.error e, ev6) =>
                (Except.error e, ev ++ ev2 ++ ev3 ++ [Event.evLogDebug] ++ ev5 ++ ev6)
              | (Except.ok fs2, ev6) =>
                (Except.ok fs2,
                 ev ++ ev2 ++ ev3 ++ [Event.evLogDebug] ++ ev5 ++ ev6 ++ [Event.evLogDebug])

namespace Pipeline

/-- `main()`: the body wrapped in the single top-level handler, which
catches every exception, logs it, and prints it; no exception escapes and
nothing is retried. -/
def main (fs : FS) : Except Err Unit × List Event :=
  match mainBody fs with
  | (Except.ok _, ev) => (Except.ok (), ev)
  | (Except.error e, ev) => (Except.ok (), ev ++ [Event.evLogError e, Event.evPrint])

end Pipeline

/-- Count of CSV-read events in a trace (dataset-loading attempts). -/
def readCsvCount (ev : List Event) : ℕ :=
  (ev.filter (fun x => match x with | Event.evReadCsv _ => true | _ => false)).length

/-- Count of CSV-write events in a trace. -/
def writeCsvCount (ev : List Event) : ℕ :=
  (ev.filter (fun x => match x with | Event.evWriteCsv _ => true | _ => false)).length

/-- Count of top-level `print` events in a trace. -/
def printCount (ev : List Event) : ℕ :=
  (ev.filter (fun x => match x with | Event.evPrint => true | _ => false)).length

/-- Cell at row `i` of column index `j`. -/
def DataFrame.cellAt (df : DataFrame) (i j : ℕ) : Option Cell :=
  df.cols[j]?.bind (fun c => c.2[i]?)

/-- A raised exception, whatever its kind. -/
def isFailure {α : Type} : Except Err α → Bool
  | Except.error _ => true
  | Except.ok _ => false

/-- Well-formed in-memory table: every column has exactly `nRows` cells. -/
def wfDF (df : DataFrame) : Prop := ∀ c ∈ df.cols, c.2.length = df.nRows

/-! ## Concrete inputs used by the witnesses -/

/-- The spec's concrete training set: rows ("cat sat", 0), ("dog ran fast", 1). -/
def wTrain : DataFrame :=
  ⟨[("text", [Cell.str "cat sat", Cell.str "dog ran fast"]),
    ("target", [Cell.num 0, Cell.num 1])]⟩

/-- The spec's concrete test set: row ("cat ran", 1). -/
def wTest : DataFrame :=
  ⟨[("text", [Cell.str "cat ran"]), ("target", [Cell.num 1])]⟩

/-- A second test set over the same training set. -/
def wTest2 : DataFrame :=
  ⟨[("text", [Cell.str "sat sat"]), ("target", [Cell.num 0])]⟩

/-- Vectorizer output on `wTrain`/`wTest` with `max_features = 3`. -/
def wOut : DataFrame × DataFrame :=
  (apply_tfidf wTrain wTest 3).toOption.getD (⟨[]⟩, ⟨[]⟩)

/-- Vectorizer output on `wTrain`/`wTest2` with `max_features = 3`. -/
def wOut2 : DataFrame × DataFrame :=
  (apply_tfidf wTrain wTest2 3).toOption.getD (⟨[]⟩, ⟨[]⟩)

/-- A training set whose text contains the literal token "label". -/
def wTrainL : DataFrame :=
  ⟨[("text", [Cell.str "label cat", Cell.str "label dog"]),
    ("target", [Cell.num 0, Cell.num 1])]⟩

/-- Vectorizer output on `wTrainL`/`wTest` with `max_features = 5`. -/
def wOutL : DataFrame × DataFrame :=
  (apply_tfidf wTrainL wTest 5).toOption.getD (⟨[]⟩, ⟨[]⟩)

/-- A training set whose text column is empty in every row. -/
def wTrainE : DataFrame :=
  ⟨[("text", [Cell.str "", Cell.str ""]), ("target", [Cell.num 0, Cell.num 1])]⟩

/-- A CSV file with one missing field (row 1, column 0). -/
def wCSV : CSVFile :=
  ⟨["text", "target"],
   [[some (Cell.str "hi"), some (Cell.num 0)], [none, some (Cell.num 1)]]⟩

/-- A filesystem holding `wCSV` at the train input path. -/
def wFSCsv : FS := ⟨[], [(trainDataPath, CsvEntry.csvOk wCSV)], [], []⟩

/-- The empty filesystem: no parameter file, nothing else. -/
def fsNoParams : FS := ⟨[], [], [], []⟩

/-- A filesystem with good parameters but no datasets. -/
def fsBadTrain : FS :=
  ⟨[(paramsPath, YamlEntry.yamlParams [("feature_engineering", [("max_features", 3)])])],
   [], [], []⟩

/-- A filesystem whose parameter file is malformed YAML. -/
def fsYamlBad : FS := ⟨[(paramsPath, YamlEntry.malformedYaml)], [], [], []⟩

/-- A filesystem whose parameter file read raises a generic I/O error. -/
def fsYamlOther : FS := ⟨[(paramsPath, YamlEntry.yamlReadFail)], [], [], []⟩

/-- A filesystem whose train CSV read raises a generic I/O error. -/
def fsCsvOther : FS := ⟨[], [(trainDataPath, CsvEntry.csvReadFail)], [], []⟩

/-- A filesystem on which writing to "p/q.csv" raises. -/
def fsBadWrite : FS := ⟨[], [], [], ["p/q.csv"]⟩

/-- A small well-formed feature table used by the save/load witnesses. -/
def wSaveDF : DataFrame :=
  ⟨[("aa", [Cell.num 1, Cell.num 0]), ("label", [Cell.num 0, Cell.num 1])]⟩

/-- The training set with an extra, unread column. -/
def wTrainX : DataFrame :=
  ⟨[("text", [Cell.str "cat sat", Cell.str "dog ran fast"]),
    ("target", [Cell.num 0, Cell.num 1]),
    ("extra", [Cell.str "zz", Cell.str "ww"])]⟩

/-! ## Helper lemmas -/

theorem lookupA_setColList (l : List (String × List Cell)) (n : String) (v : List Cell) :
    lookupA (DataFrame.setColList n v l) n = some v := by
  induction l with
  | nil => simp [DataFrame.setColList, lookupA]
  | cons c cs ih =>
    by_cases h : c.1 = n
    · simp [DataFrame.setColList, h, lookupA]
    · simp [DataFrame.setColList, h, lookupA, ih]

theorem getCol_setCol (df : DataFrame) (n : String) (v : List Cell) :
    (df.setCol n v).getCol n = some v :=
  lookupA_setColList df.cols n v

theorem map_fst_setColList (l : List (String × List Cell)) (n : String) (v : List Cell) :
    (DataFrame.setColList n v l).map Prod.fst =
      if n ∈ l.map Prod.fst then l.map Prod.fst else l.map Prod.fst ++ [n] := by
  induction l with
  | nil => simp [DataFrame.setColList]
  | cons c cs ih =>
    by_cases h : c.1 = n
    · simp [DataFrame.setColList, h]
    · simp [DataFrame.setColList, h, ih, Ne.symm h]
      by_cases h2 : n ∈ cs.map Prod.fst <;> simp [h2, Ne.symm h]

theorem insortBy_perm {α : Type} (le : α → α → Bool) (x : α) (l : List α) :
    (insortBy le x l).Perm (x :: l) := by
  induction l with
  | nil => simp [insortBy]
  | cons y ys ih =>
    by_cases h : le x y
    · simp [insortBy, h]
    · simp only [insortBy, h]
      exact (ih.cons y).trans (List.Perm.swap x y ys)

theorem sortBy_perm {α : Type} (le : α → α → Bool) (l : List α) :
    (sortBy le l).Perm l := by
  induction l with
  | nil => simp [sortBy]
  | cons x xs ih =>
    exact (insortBy_perm le x (sortBy le xs)).trans (ih.cons x)

theorem length_sortBy {α : Type} (le : α → α → Bool) (l : List α) :
    (sortBy le l).length = l.length :=
  (sortBy_perm le l).length_eq

theorem nodup_sortBy {α : Type} (le : α → α → Bool) (l : List α) (h : l.Nodup) :
    (sortBy le l).Nodup :=
  (sortBy_perm le l).symm.nodup h

theorem fitVocab_length_le (docs : List (List String)) (maxF : ℕ) :
    (fitVocab docs maxF).length ≤ maxF := by
  unfold fitVocab
  rw [length_sortBy]
  exact List.length_take_le maxF _

theorem fitVocab_nodup (docs : List (List String)) (maxF : ℕ) :
    (fitVocab docs maxF).Nodup := by
  unfold fitVocab
  apply nodup_sortBy
  apply List.Nodup.sublist (List.take_sublist maxF _)
  apply nodup_sortBy
  unfold allTerms
  apply nodup_sortBy
  exact List.nodup_dedup _

theorem fitVocab_of_flatten_nil (docs : List (List String)) (maxF : ℕ)
    (h : docs.flatten = []) : fitVocab docs maxF = [] := by
  unfold fitVocab allTerms
  rw [h]
  simp [List.dedup_nil, sortBy, List.take_nil]

theorem cellTexts_all_empty (xs : List Cell) (ts : List String)
    (hts : cellTexts xs = some ts) (h : ∀ c ∈ xs, c = Cell.str "") :
    ∀ t ∈ ts, t = "" := by
  induction xs generalizing ts with
  | nil => simp [cellTexts] at hts; subst hts; simp
  | cons c cs ih =>
    have hc : c = Cell.str "" := h c (by simp)
    subst hc
    simp only [cellTexts, cellText] at hts
    cases hcs : cellTexts cs with
    | none => rw [hcs] at hts; simp at hts
    | some ss =>
      rw [hcs] at hts
      simp at hts
      subst hts
      intro t ht
      rcases List.mem_cons.mp ht with h1 | h2
      · exact h1
      · exact ih ss hcs (fun c hc => h c (List.mem_cons_of_mem _ hc)) t h2

theorem flatten_all_nil {α : Type} (l : List (List α)) (h : ∀ x ∈ l, x = []) :
    l.flatten = [] := by
  induction l with
  | nil => rfl
  | cons x xs ih =>
    rw [List.flatten_cons, h x (by simp), List.nil_append]
    exact ih (fun y hy => h y (List.mem_cons_of_mem _ hy))

theorem tokenize_nil : tokenize "" = [] := by decide

theorem apply_tfidf_reduce (train test : DataFrame) (maxF : ℕ) (tc gc : String)
    (xtr ytr xte yte : List Cell) (ttr tte : List String)
    (h1 : train.getCol tc = some xtr) (h2 : train.getCol gc = some ytr)
    (h3 : test.getCol tc = some xte) (h4 : test.getCol gc = some yte)
    (h5 : cellTexts xtr = some ttr) (h6 : cellTexts xte = some tte) :
    apply_tfidf train test maxF tc gc =
      if fitVocab (ttr.map tokenize) maxF = [] then Except.error Err.transformError
      else Except.ok
        (buildDF (fitVocab (ttr.map tokenize) maxF) (ttr.map tokenize) (ttr.map tokenize) ytr,
         buildDF (fitVocab (ttr.map tokenize) maxF) (ttr.map tokenize) (tte.map tokenize) yte) := by
  have e1 : apply_tfidf train test maxF tc gc = tfidfCore xtr ytr xte yte maxF := by
    unfold apply_tfidf
    rw [h1, h2, h3, h4]
  have e2 : tfidfCore xtr ytr xte yte maxF =
      if fitVocab (ttr.map tokenize) maxF = [] then Except.error Err.transformError
      else Except.ok
        (buildDF (fitVocab (ttr.map tokenize) maxF) (ttr.map tokenize) (ttr.map tokenize) ytr,
         buildDF (fitVocab (ttr.map tokenize) maxF) (ttr.map tokenize) (tte.map tokenize) yte) := by
    unfold tfidfCore
    rw [h5, h6]
  exact e1.trans e2

theorem buildDF_getCol_label (vocab : List String) (trainDocs docs : List (List String))
    (y : List Cell) : (buildDF vocab trainDocs docs y).getCol "label" = some y :=
  getCol_setCol _ "label" y

theorem buildDF_names (vocab : List String) (trainDocs docs : List (List String))
    (y : List Cell) :
    (buildDF vocab trainDocs docs y).names =
      if "label" ∈ vocab then vocab else vocab ++ ["label"] := by
  unfold buildDF DataFrame.names DataFrame.setCol
  rw [map_fst_setColList]
  simp [List.map_map, Function.comp_def]

theorem csvCols_getElem (lines : List (List (Option Cell))) :
    ∀ (hs : List String) (j k : ℕ),
    (csvCols hs j lines)[k]? =
      hs[k]?.map (fun h => (h, lines.map (fun r => optCell r[j + k]?))) := by
  intro hs
  induction hs with
  | nil => intro j k; simp [csvCols]
  | cons h hs ih =>
    intro j k
    cases k with
    | zero => simp [csvCols]
    | succ k =>
      simp only [csvCols, List.getElem?_cons_succ]
      rw [ih (j + 1) k]
      have h2 : j + 1 + k = j + (k + 1) := by omega
      rw [h2]

theorem length_csvCols (hs : List String) (j : ℕ) (lines : List (List (Option Cell))) :
    (csvCols hs j lines).length = hs.length := by
  induction hs generalizing j with
  | nil => rfl
  | cons h hs ih => simp [csvCols, ih]

theorem range_map_get {α β : Type} (g : α → β) (d : α) (l : List α) :
    (List.range l.length).map (fun i => g (l[i]?.getD d)) = l.map g := by
  induction l with
  | nil => rfl
  | cons x xs ih =>
    rw [List.length_cons, List.range_succ_eq_map, List.map_cons, List.map_map]
    congr 1
    · simp
    · have h : ((fun i => g ((x :: xs)[i]?.getD d)) ∘ Nat.succ) = (fun i => g (xs[i]?.getD d)) := by
        funext i
        simp
      rw [h, ih]

theorem cell_round (x : Cell) :
    DataFrame.fillCell (optCell (some (cellToField x))) = DataFrame.fillCell x := by
  cases x with
  | nan => rfl
  | num q => rfl
  | str s =>
    by_cases h : s = ""
    · subst h; simp [cellToField, optCell, DataFrame.fillCell]
    · simp [cellToField, h, optCell, DataFrame.fillCell]

theorem dfExt (a b : DataFrame) (h : a.cols = b.cols) : a = b := by
  cases a
  cases b
  simpa using h

theorem roundtrip (df : DataFrame) (hwf : wfDF df) :
    (read_csv (writeCSV df)).fillna = df.fillna := by
  apply dfExt
  show (csvCols df.names 0 ((rowsOf df).map (fun row => row.map cellToField))).map
      (fun c => (c.1, c.2.map DataFrame.fillCell))
    = df.cols.map (fun c => (c.1, c.2.map DataFrame.fillCell))
  apply List.ext_getElem?
  intro k
  rw [List.getElem?_map, List.getElem?_map, csvCols_getElem]
  unfold DataFrame.names
  rw [List.getElem?_map, Option.map_map, Option.map_map]
  cases hk : df.cols[k]? with
  | none => simp
  | some ck =>
    have hlen : ck.2.length = df.nRows := hwf ck (List.getElem?_mem hk)
    simp only [Option.map_some', Function.comp_apply]
    refine congrArg some (congrArg (Prod.mk ck.1) ?_)
    rw [List.map_map, List.map_map]
    unfold rowsOf
    rw [List.map_map]
    trans ((List.range df.nRows).map (fun i => DataFrame.fillCell (ck.2[i]?.getD Cell.nan)))
    · apply List.map_congr_left
      intro i _
      simp only [Function.comp_apply, Nat.zero_add]
      rw [List.getElem?_map, List.getElem?_map, hk]
      simp only [Option.map_some']
      exact cell_round _
    · rw [← hlen]
      exact range_map_get DataFrame.fillCell Cell.nan ck.2

theorem fillna_nRows (df : DataFrame) : df.fillna.nRows = df.nRows := by
  unfold DataFrame.fillna DataFrame.nRows
  cases df.cols with
  | nil => rfl
  | cons c cs => simp

theorem lookupA_map (g : List Cell → List Cell) (l : List (String × List Cell))
    (k : String) :
    lookupA (l.map (fun c => (c.1, g c.2))) k = (lookupA l k).map g := by
  induction l with
  | nil => rfl
  | cons c cs ih =>
    by_cases h : c.1 = k
    · simp [lookupA, h]
    · simp [lookupA, h, ih]

theorem getCol_fillna (df : DataFrame) (n : String) :
    df.fillna.getCol n = (df.getCol n).map (List.map DataFrame.fillCell) := by
  unfold DataFrame.fillna DataFrame.getCol
  exact lookupA_map _ df.cols n

theorem map_fillCell_id (ys : List Cell) (h : Cell.nan ∉ ys) :
    ys.map DataFrame.fillCell = ys := by
  induction ys with
  | nil => rfl
  | cons y ys ih =>
    rw [List.map_cons, ih (fun hm => h (List.mem_cons_of_mem _ hm))]
    congr 1
    cases y with
    | nan => exact absurd (List.mem_cons_self _ _) h
    | str s => rfl
    | num q => rfl

/-! ## The claims -/

/-- C1: the vocabulary fitted by the vectorizer stage is derived from the
training text column only, contains at most `max_features` terms, and the
test transform uses exactly that training-fitted vocabulary (running the
stage against a different test set leaves the feature columns unchanged). -/
theorem claim1_vocab_from_train_only (train test test2 : DataFrame) (maxF : ℕ)
    {xtr ytr xte yte xte2 yte2 : List Cell} {ttr tte tte2 : List String}
    {r r2 : DataFrame × DataFrame}
    (h1 : train.getCol "text" = some xtr) (h2 : train.getCol "target" = some ytr)
    (h3 : test.getCol "text" = some xte) (h4 : test.getCol "target" = some yte)
    (h5 : cellTexts xtr = some ttr) (h6 : cellTexts xte = some tte)
    (h7 : apply_tfidf train test maxF = Except.ok r)
    (h3b : test2.getCol "text" = some xte2) (h4b : test2.getCol "target" = some yte2)
    (h6b : cellTexts xte2 = some tte2)
    (h7b : apply_tfidf train test2 maxF = Except.ok r2) :
    (fitVocab (ttr.map tokenize) maxF).length ≤ maxF
    ∧ r.1 = buildDF (fitVocab (ttr.map tokenize) maxF) (ttr.map tokenize)
        (ttr.map tokenize) ytr
    ∧ r.2 = buildDF (fitVocab (ttr.map tokenize) maxF) (ttr.map tokenize)
        (tte.map tokenize) yte
    ∧ r2.2.names = r.2.names := by
  rw [apply_tfidf_reduce train test maxF "text" "target" xtr ytr xte yte ttr tte
    h1 h2 h3 h4 h5 h6] at h7
  rw [apply_tfidf_reduce train test2 maxF "text" "target" xtr ytr xte2 yte2 ttr tte2
    h1 h2 h3b h4b h5 h6b] at h7b
  by_cases hv : fitVocab (ttr.map tokenize) maxF = []
  · rw [if_pos hv] at h7
    simp at h7
  · rw [if_neg hv] at h7
    rw [if_neg hv] at h7b
    have h7' := (Except.ok.inj h7)
    have h7b' := (Except.ok.inj h7b)
    subst h7'
    subst h7b'
    refine ⟨fitVocab_length_le _ _, rfl, rfl, ?_⟩
    rw [buildDF_names, buildDF_names]

/-- Witness for C1 at the spec's concrete scenario (`max_features = 3`). -/
theorem claim1_witness :
    (fitVocab (["cat sat", "dog ran fast"].map tokenize) 3).length ≤ 3
    ∧ wOut.1 = buildDF (fitVocab (["cat sat", "dog ran fast"].map tokenize) 3)
        (["cat sat", "dog ran fast"].map tokenize)
        (["cat sat", "dog ran fast"].map tokenize) [Cell.num 0, Cell.num 1]
    ∧ wOut.2 = buildDF (fitVocab (["cat sat", "dog ran fast"].map tokenize) 3)
        (["cat sat", "dog ran fast"].map tokenize)
        (["cat ran"].map tokenize) [Cell.num 1]
    ∧ wOut2.2.names = wOut.2.names :=
  claim1_vocab_from_train_only wTrain wTest wTest2 3
    rfl rfl rfl rfl rfl rfl rfl rfl rfl rfl rfl

/-- C2: each output feature table's label column equals, row for row in
input order, the target column of the corresponding input dataset. -/
theorem claim2_label_column_equals_target (train test : DataFrame) (maxF : ℕ)
    {xtr ytr xte yte : List Cell} {ttr tte : List String}
    {r : DataFrame × DataFrame}
    (h1 : train.getCol "text" = some xtr) (h2 : train.getCol "target" = some ytr)
    (h3 : test.getCol "text" = some xte) (h4 : test.getCol "target" = some yte)
    (h5 : cellTexts xtr = some ttr) (h6 : cellTexts xte = some tte)
    (h7 : apply_tfidf train test maxF = Except.ok r) :
    r.1.getCol "label" = some ytr ∧ r.2.getCol "label" = some yte := by
  rw [apply_tfidf_reduce train test maxF "text" "target" xtr ytr xte yte ttr tte
    h1 h2 h3 h4 h5 h6] at h7
  by_cases hv : fitVocab (ttr.map tokenize) maxF = []
  · rw [if_pos hv] at h7
    simp at h7
  · rw [if_neg hv] at h7
    have h7' := Except.ok.inj h7
    subst h7'
    exact ⟨buildDF_getCol_label _ _ _ _, buildDF_getCol_label _ _ _ _⟩

/-- Witness for C2: train labels [0, 1] and test label [1] are carried over. -/
theorem claim2_witness :
    wOut.1.getCol "label" = some [Cell.num 0, Cell.num 1]
    ∧ wOut.2.getCol "label" = some [Cell.num 1] :=
  claim2_label_column_equals_target wTrain wTest 3 rfl rfl rfl rfl rfl rfl rfl

/-- C7: the vectorizer stage is a deterministic function of its inputs: it
reads nothing but the text and target columns of the two datasets, so any
datasets agreeing on those columns (in particular, identical ones) produce
identical output tables under the same configuration. -/
theorem claim7_deterministic (train1 train2 test1 test2 : DataFrame) (maxF : ℕ)
    (tc gc : String)
    (e1 : train1.getCol tc = train2.getCol tc)
    (e2 : train1.getCol gc = train2.getCol gc)
    (e3 : test1.getCol tc = test2.getCol tc)
    (e4 : test1.getCol gc = test2.getCol gc) :
    apply_tfidf train1 test1 maxF tc gc = apply_tfidf train2 test2 maxF tc gc := by
  unfold apply_tfidf
  rw [e1, e2, e3, e4]

/-- Witness for C7: a train table with an extra column gives the same output. -/
theorem claim7_witness :
    apply_tfidf wTrainX wTest 3 "text" "target" = apply_tfidf wTrain wTest 3 "text" "target" :=
  claim7_deterministic wTrainX wTrain wTest wTest 3 "text" "target" rfl rfl rfl rfl

/-- C10: when the fitted vocabulary contains the literal term "label", the
pandas assignment `df['label'] = y` overwrites that term's TF-IDF feature
column in place: the outputs have exactly one column per vocabulary term
(no separate trailing label column) and the column named "label" holds the
target values. -/
theorem claim10_label_term_overwritten (train test : DataFrame) (maxF : ℕ)
    {xtr ytr xte yte : List Cell} {ttr tte : List String}
    {r : DataFrame × DataFrame}
    (h1 : train.getCol "text" = some xtr) (h2 : train.getCol "target" = some ytr)
    (h3 : test.getCol "text" = some xte) (h4 : test.getCol "target" = some yte)
    (h5 : cellTexts xtr = some ttr) (h6 : cellTexts xte = some tte)
    (h7 : apply_tfidf train test maxF = Except.ok r)
    (hlab : "label" ∈ fitVocab (ttr.map tokenize) maxF) :
    r.1.names = fitVocab (ttr.map tokenize) maxF
    ∧ r.2.names = fitVocab (ttr.map tokenize) maxF
    ∧ r.1.getCol "label" = some ytr
    ∧ r.2.getCol "label" = some yte
    ∧ r.1.cols.length = (fitVocab (ttr.map tokenize) maxF).length
    ∧ r.1.names.count "label" = 1 := by
  rw [apply_tfidf_reduce train test maxF "text" "target" xtr ytr xte yte ttr tte
    h1 h2 h3 h4 h5 h6] at h7
  by_cases hv : fitVocab (ttr.map tokenize) maxF = []
  · rw [if_pos hv] at h7
    simp at h7
  · rw [if_neg hv] at h7
    have h7' := Except.ok.inj h7
    subst h7'
    have hn1 : (buildDF (fitVocab (ttr.map tokenize) maxF) (ttr.map tokenize)
        (ttr.map tokenize) ytr).names = fitVocab (ttr.map tokenize) maxF := by
      rw [buildDF_names, if_pos hlab]
    have hn2 : (buildDF (fitVocab (ttr.map tokenize) maxF) (ttr.map tokenize)
        (tte.map tokenize) yte).names = fitVocab (ttr.map tokenize) maxF := by
      rw [buildDF_names, if_pos hlab]
    refine ⟨hn1, hn2, buildDF_getCol_label _ _ _ _, buildDF_getCol_label _ _ _ _, ?_, ?_⟩
    · have := congrArg List.length hn1
      simpa [DataFrame.names] using this
    · rw [hn1]
      exact List.count_eq_one_of_mem (fitVocab_nodup _ _) hlab

/-- Witness for C10: training texts containing the token "label". -/
theorem claim10_witness :
    wOutL.1.names = fitVocab (["label cat", "label dog"].map tokenize) 5
    ∧ wOutL.2.names = fitVocab (["label cat", "label dog"].map tokenize) 5
    ∧ wOutL.1.getCol "label" = some [Cell.num 0, Cell.num 1]
    ∧ wOutL.2.getCol "label" = some [Cell.num 1]
    ∧ wOutL.1.cols.length = (fitVocab (["label cat", "label dog"].map tokenize) 5).length
    ∧ wOutL.1.names.count "label" = 1 :=
  claim10_label_term_overwritten wTrainL wTest 5 rfl rfl rfl rfl rfl rfl rfl (by decide)

/-- C3: parameter loading propagates a logged not-found error for a missing
path and a logged parse error for malformed content, but its catch-all
branch only logs and returns nothing (no exception propagates) — unlike the
other error paths, such as dataset loading, which log and re-raise. -/
theorem claim3_load_params_error_paths (fs1 fs2 fs3 fs4 : FS) (p1 p2 p3 p4 : String)
    (h1 : lookupA fs1.yamlFiles p1 = none)
    (h2 : lookupA fs2.yamlFiles p2 = some YamlEntry.malformedYaml)
    (h3 : lookupA fs3.yamlFiles p3 = some YamlEntry.yamlReadFail)
    (h4 : lookupA fs4.csvFiles p4 = some CsvEntry.csvReadFail) :
    load_params fs1 p1 =
      (Except.error Err.fileNotFound,
       [Event.evOpenParams p1, Event.evLogError Err.fileNotFound])
    ∧ load_params fs2 p2 =
      (Except.error Err.parseError,
       [Event.evOpenParams p2, Event.evLogError Err.parseError])
    ∧ load_params fs3 p3 =
      (Except.ok none, [Event.evOpenParams p3, Event.evLogError Err.other])
    ∧ load_data fs4 p4 =
      (Except.error Err.other, [Event.evReadCsv p4, Event.evLogError Err.other]) := by
  refine ⟨?_, ?_, ?_, ?_⟩
  · simp [load_params, h1]
  · simp [load_params, h2]
  · simp [load_params, h3]
  · simp [load_data, h4]

/-- Witness for C3 on four concrete filesystems. -/
theorem claim3_witness :
    load_params fsNoParams paramsPath =
      (Except.error Err.fileNotFound,
       [Event.evOpenParams paramsPath, Event.evLogError Err.fileNotFound])
    ∧ load_params fsYamlBad paramsPath =
      (Except.error Err.parseError,
       [Event.evOpenParams paramsPath, Event.evLogError Err.parseError])
    ∧ load_params fsYamlOther paramsPath =
      (Except.ok none, [Event.evOpenParams paramsPath, Event.evLogError Err.other])
    ∧ load_data fsCsvOther trainDataPath =
      (Except.error Err.other,
       [Event.evReadCsv trainDataPath, Event.evLogError Err.other]) :=
  claim3_load_params_error_paths fsNoParams fsYamlBad fsYamlOther fsCsvOther
    paramsPath paramsPath paramsPath trainDataPath rfl rfl rfl rfl

/-- C4: loading a well-formed delimited file yields a table with one row per
data line, and every cell that was missing in the file equals the empty
string after loading. -/
theorem claim4_load_data_fills_missing (fs : FS) (path : String) (f : CSVFile)
    (h : lookupA fs.csvFiles path = some (CsvEntry.csvOk f))
    (hwf : wellFormedCSV f) :
    (load_data fs path).1 = Except.ok ((read_csv f).fillna)
    ∧ ((read_csv f).fillna).nRows = f.lines.length
    ∧ ∀ (i j : ℕ) (row : List (Option Cell)),
        f.lines[i]? = some row → row[j]? = some none →
        ((read_csv f).fillna).cellAt i j = some (Cell.str "") := by
  refine ⟨by simp [load_data, h], ?_, ?_⟩
  · obtain ⟨h0, hs, hh⟩ := List.exists_cons_of_ne_nil hwf.1
    simp [read_csv, DataFrame.fillna, DataFrame.nRows, hh, csvCols]
  · intro i j row hrow hcell
    have hjrow : j < row.length := by
      rw [List.getElem?_eq_some] at hcell
      exact hcell.1
    have hj : j < f.header.length := by
      rw [← hwf.2 row (List.getElem?_mem hrow)]
      exact hjrow
    unfold DataFrame.cellAt DataFrame.fillna read_csv
    show ((csvCols f.header 0 f.lines).map (fun c => (c.1, c.2.map DataFrame.fillCell)))[j]?.bind _
      = some (Cell.str "")
    rw [List.getElem?_map, csvCols_getElem, List.getElem?_eq_getElem hj]
    simp only [Option.map_some', Option.some_bind, Nat.zero_add]
    rw [List.map_map, List.getElem?_map, hrow]
    simp only [Option.map_some', Function.comp_apply, hcell]
    rfl

/-- Witness for C4 on a file whose second row has a missing first field. -/
theorem claim4_witness :
    (load_data wFSCsv trainDataPath).1 = Except.ok ((read_csv wCSV).fillna)
    ∧ ((read_csv wCSV).fillna).nRows = wCSV.lines.length
    ∧ ((read_csv wCSV).fillna).cellAt 1 0 = some (Cell.str "") :=
  have h := claim4_load_data_fills_missing wFSCsv trainDataPath wCSV rfl
    (by constructor <;> decide)
  ⟨h.1, h.2.1, h.2.2 1 0 [none, some (Cell.num 1)] rfl rfl⟩

/-- C5: any stage failure is caught exactly once by the top-level handler,
which logs it and prints it, and nothing runs after the failing stage; a
missing parameter file in particular is logged as not-found and aborts the
run before any dataset load, and a failing train-set load prevents the
second load and all writes. -/
theorem claim5_top_level_abort (fs : FS) (e : Err) (ev : List Event)
    (h : mainBody fs = (Except.error e, ev)) :
    Pipeline.main fs = (Except.ok (), ev ++ [Event.evLogError e, Event.evPrint])
    ∧ (Pipeline.main fsNoParams).2 =
      [Event.evOpenParams paramsPath, Event.evLogError Err.fileNotFound,
       Event.evLogError Err.fileNotFound, Event.evPrint]
    ∧ readCsvCount (Pipeline.main fsNoParams).2 = 0
    ∧ printCount (Pipeline.main fsNoParams).2 = 1
    ∧ readCsvCount (Pipeline.main fsBadTrain).2 = 1
    ∧ writeCsvCount (Pipeline.main fsBadTrain).2 = 0
    ∧ printCount (Pipeline.main fsBadTrain).2 = 1 := by
  refine ⟨?_, by decide, by decide, by decide, by decide, by decide, by decide⟩
  simp [Pipeline.main, h]

/-- Witness for C5 at the empty filesystem (missing parameter file). -/
theorem claim5_witness :
    Pipeline.main fsNoParams =
      (Except.ok (),
       [Event.evOpenParams paramsPath, Event.evLogError Err.fileNotFound]
         ++ [Event.evLogError Err.fileNotFound, Event.evPrint])
    ∧ (Pipeline.main fsNoParams).2 =
      [Event.evOpenParams paramsPath, Event.evLogError Err.fileNotFound,
       Event.evLogError Err.fileNotFound, Event.evPrint]
    ∧ readCsvCount (Pipeline.main fsNoParams).2 = 0
    ∧ printCount (Pipeline.main fsNoParams).2 = 1
    ∧ readCsvCount (Pipeline.main fsBadTrain).2 = 1
    ∧ writeCsvCount (Pipeline.main fsBadTrain).2 = 0
    ∧ printCount (Pipeline.main fsBadTrain).2 = 1 :=
  claim5_top_level_abort fsNoParams Err.fileNotFound
    [Event.evOpenParams paramsPath, Event.evLogError Err.fileNotFound] rfl

/-- C9: the dataset writer first creates the missing parent directory of the
destination, then writes the table as a delimited file whose header row is
exactly the column names (no row-index column) and whose data lines are the
table's rows; a failing write is a generic error, logged and re-raised. -/
theorem claim9_save_data (df : DataFrame) (path : String) (fs : FS)
    (hgood : path ∉ fs.badWritePaths)
    (dfb : DataFrame) (pathb : String) (fsb : FS)
    (hbad : pathb ∈ fsb.badWritePaths) :
    save_data df path fs =
      (Except.ok
        { fs with
          dirs := dirname path :: fs.dirs,
          csvFiles := (path, CsvEntry.csvOk (writeCSV df)) :: fs.csvFiles },
       [Event.evMakedirs (dirname path), Event.evWriteCsv path, Event.evLogDebug])
    ∧ (writeCSV df).header = df.names
    ∧ (writeCSV df).lines = (rowsOf df).map (fun row => row.map cellToField)
    ∧ save_data dfb pathb fsb =
      (Except.error Err.other,
       [Event.evMakedirs (dirname pathb), Event.evLogError Err.other]) := by
  refine ⟨?_, rfl, rfl, ?_⟩
  · simp [save_data, hgood]
  · simp [save_data, hbad]

/-- Witness for C9 writing a small table to the processed-data path. -/
theorem claim9_witness :
    save_data wSaveDF trainOutPath fsNoParams =
      (Except.ok
        { fsNoParams with
          dirs := dirname trainOutPath :: fsNoParams.dirs,
          csvFiles := (trainOutPath, CsvEntry.csvOk (writeCSV wSaveDF)) :: fsNoParams.csvFiles },
       [Event.evMakedirs (dirname trainOutPath), Event.evWriteCsv trainOutPath,
        Event.evLogDebug])
    ∧ (writeCSV wSaveDF).header = wSaveDF.names
    ∧ (writeCSV wSaveDF).lines = (rowsOf wSaveDF).map (fun row => row.map cellToField)
    ∧ save_data wSaveDF "p/q.csv" fsBadWrite =
      (Except.error Err.other,
       [Event.evMakedirs (dirname "p/q.csv"), Event.evLogError Err.other]) :=
  claim9_save_data wSaveDF trainOutPath fsNoParams (by decide)
    wSaveDF "p/q.csv" fsBadWrite (by decide)

/-- C6: saving a well-formed feature table and loading the file back yields
a table with the same row count and the same label-column values (labels
are never NaN in a feature table; numeric text formatting is outside the
model). -/
theorem claim6_save_load_roundtrip (df : DataFrame) (path : String) (fs : FS)
    (hwf : wfDF df) {ys : List Cell}
    (hy : df.getCol "label" = some ys) (hnan : Cell.nan ∉ ys)
    {fs2 : FS} {ev : List Event}
    (hs : save_data df path fs = (Except.ok fs2, ev)) :
    (load_data fs2 path).1 = Except.ok ((read_csv (writeCSV df)).fillna)
    ∧ ((read_csv (writeCSV df)).fillna).nRows = df.nRows
    ∧ ((read_csv (writeCSV df)).fillna).getCol "label" = some ys := by
  have hb : path ∉ fs.badWritePaths := by
    by_contra hmem
    simp [save_data, hmem] at hs
  rw [save_data, if_neg hb] at hs
  injection hs with hs1 hs2
  injection hs1 with hs1
  subst hs1
  refine ⟨?_, ?_, ?_⟩
  · simp [load_data, lookupA]
  · rw [roundtrip df hwf, fillna_nRows]
  · rw [roundtrip df hwf, getCol_fillna, hy]
    simp [map_fillCell_id ys hnan]


/-- Witness for C6 on a small two-row feature table. -/
theorem claim6_witness :
    (load_data { fsNoParams with
        dirs := dirname trainOutPath :: fsNoParams.dirs,
        csvFiles := (trainOutPath, CsvEntry.csvOk (writeCSV wSaveDF)) :: fsNoParams.csvFiles }
      trainOutPath).1 = Except.ok ((read_csv (writeCSV wSaveDF)).fillna)
    ∧ ((read_csv (writeCSV wSaveDF)).fillna).nRows = wSaveDF.nRows
    ∧ ((read_csv (writeCSV wSaveDF)).fillna).getCol "label" = some [Cell.num 0, Cell.num 1] :=
  claim6_save_load_roundtrip wSaveDF trainOutPath fsNoParams (by unfold wfDF; decide) rfl (by decide) rfl

/-- C8: a training text column that is empty string in every row yields a
fitted vocabulary of size zero, and the stage, as pinned by the
implementation, signals a failure (sklearn's empty-vocabulary error, or the
earlier column/value errors) rather than producing label-only output. -/
theorem claim8_empty_text_column (train test : DataFrame) (maxF : ℕ)
    {xs : List Cell} {ts : List String}
    (h1 : train.getCol "text" = some xs)
    (hall : ∀ c ∈ xs, c = Cell.str "")
    (hts : cellTexts xs = some ts) :
    fitVocab (ts.map tokenize) maxF = []
    ∧ isFailure (apply_tfidf train test maxF) = true := by
  have hvocab : fitVocab (ts.map tokenize) maxF = [] := by
    apply fitVocab_of_flatten_nil
    apply flatten_all_nil
    intro x hx
    obtain ⟨t, ht, rfl⟩ := List.mem_map.mp hx
    rw [cellTexts_all_empty xs ts hts hall t ht]
    exact tokenize_nil
  refine ⟨hvocab, ?_⟩
  cases hg : train.getCol "target" with
  | none =>
    have he : apply_tfidf train test maxF = Except.error Err.keyError := by
      unfold apply_tfidf
      rw [h1, hg]
    rw [he]
    rfl
  | some ytr =>
    cases hx : test.getCol "text" with
    | none =>
      have he : apply_tfidf train test maxF = Except.error Err.keyError := by
        unfold apply_tfidf
        rw [h1, hg, hx]
      rw [he]
      rfl
    | some xte =>
      cases hy : test.getCol "target" with
      | none =>
        have he : apply_tfidf train test maxF = Except.error Err.keyError := by
          unfold apply_tfidf
          rw [h1, hg, hx, hy]
        rw [he]
        rfl
      | some yte =>
        cases hce : cellTexts xte with
        | none =>
          have e1 : apply_tfidf train test maxF = tfidfCore xs ytr xte yte maxF := by
            unfold apply_tfidf
            rw [h1, hg, hx, hy]
          have e2 : tfidfCore xs ytr xte yte maxF = Except.error Err.transformError := by
            unfold tfidfCore
            rw [hts, hce]
          rw [e1, e2]
          rfl
        | some tte =>
          rw [apply_tfidf_reduce train test maxF "text" "target" xs ytr xte yte ts tte
            h1 hg hx hy hts hce, if_pos hvocab]
          rfl

/-- Witness for C8 with a two-row all-empty training text column. -/
theorem claim8_witness :
    fitVocab ((["", ""] : List String).map tokenize) 3 = []
    ∧ isFailure (apply_tfidf wTrainE wTest 3) = true :=
  claim8_empty_text_column wTrainE wTest 3 rfl (by decide) rfl
